import Mathlib

/-
Verification of the radiology impression generator (radiology_impressions.py).
The pure helper functions of the program are embedded shallowly:
Python dicts become functions to Option, the file system becomes a map from
paths to optional byte contents, and the floating token estimate is modelled
over the rationals.
-/

/-- ASCII whitespace recognised by Python str.split and str.strip
(space, tab, newline, carriage return, vertical tab, form feed). -/
def pyIsSpace (c : Char) : Bool :=
  c == ' ' || c == '\t' || c == '\n' || c == '\r' || c == '\x0b' || c == '\x0c'

/-- Fuel-driven core of Python str.replace: scan left to right, replacing each
non-overlapping occurrence of pat by rep.  On a match the scan resumes after
the matched occurrence (the cons head plus a drop of pat.length - 1 from the
tail).  The fuel is always instantiated with the length of the scanned list,
which suffices because each step consumes at least one character. -/
def replaceFuel (pat rep : List Char) : Nat → List Char → List Char
  | _, [] => []
  | 0, l => l
  | fuel + 1, c :: rest =>
    if pat ≠ [] ∧ pat.isPrefixOf (c :: rest) then
      rep ++ replaceFuel pat rep fuel (rest.drop (pat.length - 1))
    else
      c :: replaceFuel pat rep fuel rest

/-- Python str.replace over character lists (all patterns used by the program
are non-empty, so the empty-pattern corner of str.replace never arises). -/
def replaceList (pat rep l : List Char) : List Char :=
  replaceFuel pat rep l.length l

/-- Python s.replace(pat, rep) on strings. -/
def pyReplace (s pat rep : String) : String :=
  String.mk (replaceList pat.data rep.data s.data)

/-- Whether pat occurs as a contiguous substring of l (scanning positions). -/
def hasOccurrence (pat : List Char) : List Char → Bool
  | [] => pat.isPrefixOf []
  | c :: rest => pat.isPrefixOf (c :: rest) || hasOccurrence pat rest

/-- Accumulator-style embedding of Python str.split with no separator:
runs of whitespace separate words, leading and trailing runs produce no
empty words. -/
def splitAux : List Char → List Char → List (List Char)
  | [], acc => if acc = [] then [] else [acc.reverse]
  | c :: rest, acc =>
    if pyIsSpace c then
      if acc = [] then splitAux rest [] else acc.reverse :: splitAux rest []
    else
      splitAux rest (c :: acc)

/-- Python text.split() on strings. -/
def pySplit (s : String) : List String :=
  (splitAux s.data []).map String.mk

/-- len(text.split()) -/
def word_count (s : String) : Nat :=
  (pySplit s).length

/-- count_tokens_estimate: len(text.split()) * 1.3, modelled exactly over ℚ. -/
def count_tokens_estimate (s : String) : ℚ :=
  (word_count s : ℚ) * (13 / 10)

/-- Python s.strip(): drop whitespace from both ends. -/
def pyStrip (s : String) : String :=
  String.mk (((s.data.dropWhile pyIsSpace).reverse.dropWhile pyIsSpace).reverse)

/-- Python sep.join(parts). -/
def joinSep (sep : String) : List String → String
  | [] => ""
  | [x] => x
  | x :: y :: xs => x ++ sep ++ joinSep sep (y :: xs)

-- Basic facts about the string utilities ------------------------------------

theorem data_append (a b : String) : (a ++ b).data = a.data ++ b.data := rfl

theorem string_mk_data (s : String) : String.mk s.data = s := rfl

/-- replaceFuel ignores the exact amount of fuel once it covers the input. -/
theorem replaceFuel_fuel_irrel (pat rep : List Char) :
    ∀ fuel₁ fuel₂ l, l.length ≤ fuel₁ → l.length ≤ fuel₂ →
      replaceFuel pat rep fuel₁ l = replaceFuel pat rep fuel₂ l := by
  intro fuel₁
  induction fuel₁ with
  | zero =>
    intro fuel₂ l h₁ _
    have hl : l = [] := List.eq_nil_of_length_eq_zero (Nat.le_zero.mp h₁)
    subst hl
    cases fuel₂ <;> rfl
  | succ f ih =>
    intro fuel₂ l h₁ h₂
    cases l with
    | nil => cases fuel₂ <;> rfl
    | cons c rest =>
      cases fuel₂ with
      | zero => exact absurd h₂ (by simp)
      | succ f₂ =>
        simp only [replaceFuel]
        by_cases hcond : pat ≠ [] ∧ pat.isPrefixOf (c :: rest)
        · rw [if_pos hcond, if_pos hcond]
          have hd : (rest.drop (pat.length - 1)).length ≤ rest.length := by
            simp [List.length_drop]
          have hr₁ : (rest.drop (pat.length - 1)).length ≤ f :=
            le_trans hd (Nat.le_of_succ_le_succ h₁)
          have hr₂ : (rest.drop (pat.length - 1)).length ≤ f₂ :=
            le_trans hd (Nat.le_of_succ_le_succ h₂)
          rw [ih f₂ _ hr₁ hr₂]
        · rw [if_neg hcond, if_neg hcond]
          rw [ih f₂ rest (Nat.le_of_succ_le_succ h₁) (Nat.le_of_succ_le_succ h₂)]

/-- If the pattern never occurs, replacement leaves the list unchanged. -/
theorem replaceFuel_no_occurrence (pat rep : List Char) :
    ∀ fuel l, l.length ≤ fuel → hasOccurrence pat l = false →
      replaceFuel pat rep fuel l = l := by
  intro fuel
  induction fuel with
  | zero =>
    intro l h₁ _
    have hl : l = [] := List.eq_nil_of_length_eq_zero (Nat.le_zero.mp h₁)
    subst hl; rfl
  | succ f ih =>
    intro l h₁ hocc
    cases l with
    | nil => rfl
    | cons c rest =>
      simp only [hasOccurrence, Bool.or_eq_false_iff] at hocc
      simp only [replaceFuel]
      rw [if_neg (by intro hc; exact absurd hc.2 (by simp [hocc.1]))]
      rw [ih rest (Nat.le_of_succ_le_succ h₁) hocc.2]

theorem replaceList_no_occurrence (pat rep l : List Char)
    (h : hasOccurrence pat l = false) : replaceList pat rep l = l :=
  replaceFuel_no_occurrence pat rep l.length l le_rfl h

theorem isPrefixOf_self_append (l t : List Char) : l.isPrefixOf (l ++ t) = true := by
  induction l with
  | nil => simp [List.isPrefixOf]
  | cons c cs ih => simp [List.isPrefixOf, ih]

/-- Splitting at the first occurrence of the pattern: if the pattern starts at
no position strictly inside the prefix a, the replacement rewrites that
occurrence and continues after it. -/
theorem replaceFuel_append_occ (pat rep : List Char) (hp : pat ≠ []) :
    ∀ (a : List Char) (b : List Char) (fuel : Nat),
      (a ++ pat ++ b).length ≤ fuel →
      (∀ i, i < a.length → pat.isPrefixOf ((a ++ pat ++ b).drop i) = false) →
      replaceFuel pat rep fuel (a ++ pat ++ b) =
        a ++ rep ++ replaceFuel pat rep b.length b := by
  intro a
  induction a with
  | nil =>
    intro b fuel hfuel _
    obtain ⟨p, ps, hpat⟩ := List.exists_cons_of_ne_nil hp
    subst hpat
    simp only [List.nil_append] at hfuel ⊢
    cases fuel with
    | zero => exact absurd hfuel (by simp)
    | succ f =>
      show replaceFuel (p :: ps) rep (f + 1) (p :: (ps ++ b)) = _
      simp only [replaceFuel]
      rw [if_pos ⟨by simp, by simpa using isPrefixOf_self_append (p :: ps) b⟩]
      have hdrop : (ps ++ b).drop ((p :: ps).length - 1) = b := by
        simpa using List.drop_left ps b
      rw [hdrop]
      have hb : b.length ≤ f := by
        simp only [List.length_cons, List.length_append] at hfuel
        omega
      rw [replaceFuel_fuel_irrel (p :: ps) rep f b.length b hb le_rfl]
  | cons c a' ih =>
    intro b fuel hfuel hno
    cases fuel with
    | zero => exact absurd hfuel (by simp)
    | succ f =>
      show replaceFuel pat rep (f + 1) (c :: (a' ++ pat ++ b)) = _
      simp only [replaceFuel]
      have h0 := hno 0 (by simp)
      simp only [List.drop_zero] at h0
      rw [if_neg (by
        intro hc
        have : pat.isPrefixOf (c :: (a' ++ pat ++ b)) = true := by
          simpa using hc.2
        rw [show (c :: (a' ++ pat ++ b)) = ((c :: a') ++ pat ++ b) by simp] at this
        rw [h0] at this
        exact Bool.false_ne_true this)]
      have hrec := ih b f
        (by simp only [List.length_cons, List.length_append] at hfuel ⊢; omega)
        (by
          intro i hi
          have := hno (i + 1) (by simpa using Nat.succ_lt_succ hi)
          simpa [List.drop_succ_cons] using this)
      rw [hrec]
      simp

theorem replaceList_append_occ (pat rep : List Char) (hp : pat ≠ [])
    (a b : List Char)
    (hno : ∀ i, i < a.length → pat.isPrefixOf ((a ++ pat ++ b).drop i) = false) :
    replaceList pat rep (a ++ pat ++ b) = a ++ rep ++ replaceList pat rep b :=
  replaceFuel_append_occ pat rep hp a b (a ++ pat ++ b).length le_rfl hno

-- The program's constants and helper functions -------------------------------

/-- Default prompt template with document placeholder (DEFAULT_PROMPT). -/
def DEFAULT_PROMPT : String := "You are an expert radiologist creating a concise radiology impression section following RCR 2018 standards.

CRITICAL INSTRUCTIONS:
1. You MUST follow ALL steps, protocols, and guidelines mentioned in the REFERENCE DOCUMENT below
2. Read the ENTIRE reference document carefully before generating the impression
3. Apply every relevant checklist, measurement standard, and reporting requirement from the document
4. If the document specifies a structure or format, follow it exactly
5. If the document mentions specific terminology or classifications, use them

Generate the impression as exactly 3-4 bullet points:
- Summarize key findings following document protocols
- State primary diagnosis or differential as per document guidelines
- Include any measurements or specifics required by the document

Use clear, standardized terminology as specified in the reference document.

---REFERENCE DOCUMENT START---
{document_content}
---REFERENCE DOCUMENT END---

Now generate the impression following ALL guidelines above."

/-- The placeholder token filled with document text. -/
def PLACEHOLDER : String := "{document_content}"

/-- Notice substituted when no reference document file exists (line 401). -/
def NO_DOC_NOTICE : String := "No reference document available for this study type."

/-- State of the study_prompts.json file: absent, present but unparseable,
or parsed into a JSON object (modelled as a partial map on study names). -/
inductive PromptsFileState
  | absent
  | unparseable
  | parsed (m : String → Option String)

/-- load_study_prompts: parsed contents, or the empty dict when the file is
absent or json.load raises. -/
def load_study_prompts : PromptsFileState → (String → Option String)
  | .absent => fun _ => none
  | .unparseable => fun _ => none
  | .parsed m => m

/-- save_study_prompt (successful write): load the prompts, set the key,
dump the updated dict back to the file. -/
def save_study_prompt (pf : PromptsFileState) (study_name prompt : String) :
    PromptsFileState :=
  .parsed (fun k =>
    if k = study_name then some prompt else load_study_prompts pf k)

/-- get_study_prompt: prompts.get(study_name, DEFAULT_PROMPT). -/
def get_study_prompt (pf : PromptsFileState) (study_name : String) : String :=
  (load_study_prompts pf study_name).getD DEFAULT_PROMPT

/-- DOCUMENTS_DIR = config/study_documents -/
def DOCUMENTS_DIR : String := "config/study_documents"

/-- get_study_document_path: replace '/' and ' ' by '_' in the study name and
place the .docx file under DOCUMENTS_DIR. -/
def get_study_document_path (study_name : String) : String :=
  DOCUMENTS_DIR ++ "/" ++ pyReplace (pyReplace study_name "/" "_") " " "_" ++ ".docx"

/-- The document subdirectory of the file system: each path maps to the byte
contents of the file stored there, if any. -/
def DocFS : Type := String → Option (List Nat)

/-- save_study_document (successful write): write the uploaded bytes to the
study's document path. -/
def save_study_document (fs : DocFS) (study_name : String)
    (uploaded : List Nat) : DocFS :=
  fun p => if p = get_study_document_path study_name then some uploaded else fs p

/-- doc_path.unlink() in the Remove Document handler (successful removal). -/
def remove_study_document (fs : DocFS) (study_name : String) : DocFS :=
  fun p => if p = get_study_document_path study_name then none else fs p

/-- doc_path.exists() for the study's document path. -/
def document_exists (fs : DocFS) (study_name : String) : Bool :=
  (fs (get_study_document_path study_name)).isSome

/-- Outcome of the docx extraction libraries on an existing file: extracted
text (possibly empty) or a raised exception. -/
inductive ExtractionResult
  | ok (text : String)
  | failed
deriving DecidableEq

/-- load_document_content with the extractor libraries abstracted: returns ""
when the file does not exist, the extracted text when extraction succeeds,
and "" when extraction raises (the except branch, lines 201-203). -/
def load_document_content (fileExists : Bool) (ext : ExtractionResult) : String :=
  if fileExists then
    match ext with
    | .ok t => t
    | .failed => ""
  else ""

/-- One row of the trailing table section of the structure-aware fallback:
cell texts are stripped and joined by the delimiter (line 192). -/
def row_text (row : List String) : String :=
  joinSep " | " (row.map pyStrip)

/-- The lines contributed by a list of table rows: a row is appended exactly
when its joined text is truthy, i.e. a non-empty string (lines 191-194). -/
def table_row_lines (rows : List (List String)) : List String :=
  rows.filterMap (fun row =>
    if row_text row = "" then none else some (row_text row))

/-- Token level reported by the configuration sidebar check (lines 274-279). -/
inductive TokenLevel
  | error
  | warn
  | ok
deriving DecidableEq

/-- validate: error above 100000 estimated tokens, warning above 50000,
ok otherwise. -/
def validate (t : ℚ) : TokenLevel :=
  if 100000 < t then .error
  else if 50000 < t then .warn
  else .ok

/-- The hard ceiling in the submission handler (line 412): the API call is
blocked when the estimate exceeds 120000 tokens. -/
def blocks_api_call (t : ℚ) : Bool :=
  decide (120000 < t)

/-- Filling the document content into the prompt template (line 406):
study_prompt_template.replace("{document_content}", document_content). -/
def assemble (template document_content : String) : String :=
  pyReplace template PLACEHOLDER document_content

/-- document_content in the submission handler: the loaded document when the
file exists, otherwise the no-document notice (lines 396-403). -/
def document_content_for (fileExists : Bool) (ext : ExtractionResult) : String :=
  if fileExists then load_document_content fileExists ext else NO_DOC_NOTICE

/-- The user prompt f-string of the submission handler (lines 415-420). -/
def build_user_prompt (study_type history findings : String) : String :=
  "\nStudy Type: " ++ study_type ++ "\nClinical History: " ++
    (if history = "" then "Not provided" else history) ++
    "\nKey Findings: " ++ findings ++
    "\n\nFollowing ALL protocols and guidelines in the reference document above, generate a concise impression in 3-4 bullet points."

/-- The system prompt built by the submission handler. -/
def system_prompt_for (pf : PromptsFileState) (study_type : String)
    (fileExists : Bool) (ext : ExtractionResult) : String :=
  assemble (get_study_prompt pf study_type) (document_content_for fileExists ext)

/-- Result of one submission: either blocked by the token ceiling before any
network call, or an API call carrying the system and user prompts. -/
inductive SubmitOutcome
  | blocked
  | apiCall (systemPrompt userPrompt : String)
deriving DecidableEq

/-- The submission handler (lines 390-434) up to the API call: build the
system prompt from the study's template and document, estimate tokens, block
above the hard ceiling, otherwise call the API with the two prompts. -/
def run_submission (pf : PromptsFileState) (study_type history findings : String)
    (fileExists : Bool) (ext : ExtractionResult) : SubmitOutcome :=
  let sys := system_prompt_for pf study_type fileExists ext
  if 120000 < count_tokens_estimate sys then .blocked
  else .apiCall sys (build_user_prompt study_type history findings)

-- Helper lemmas shared by the claim theorems ---------------------------------

theorem pyReplace_no_occurrence (s pat rep : String)
    (h : hasOccurrence pat.data s.data = false) : pyReplace s pat rep = s := by
  show String.mk (replaceList pat.data rep.data s.data) = s
  rw [replaceList_no_occurrence _ _ _ h]

theorem hasOccurrence_singleton (a : Char) (l : List Char)
    (h : ∀ c ∈ l, c ≠ a) : hasOccurrence [a] l = false := by
  induction l with
  | nil => rfl
  | cons c rest ih =>
    simp only [hasOccurrence, Bool.or_eq_false_iff]
    constructor
    · have hac : (a == c) = false := by
        simp only [beq_eq_false_iff_ne, ne_eq]
        intro hac
        exact (h c (List.mem_cons_self c rest)) hac.symm
      simp [List.isPrefixOf, hac]
    · exact ih (fun c hc => h c (List.mem_cons_of_mem _ hc))

theorem append_mid_ne_empty (a b : String) : a ++ " | " ++ b ≠ "" := by
  intro h
  have hd := congrArg String.data h
  simp only [data_append] at hd
  simp at hd

/-- Filling a template that is exactly the placeholder yields the document. -/
theorem assemble_placeholder (d : String) : assemble PLACEHOLDER d = d := by
  have h := replaceList_append_occ PLACEHOLDER.data d.data (by decide) [] []
    (fun i hi => absurd hi (by simp))
  have h0 : replaceList PLACEHOLDER.data d.data [] = [] := rfl
  simp only [List.nil_append, List.append_nil, h0] at h
  show String.mk (replaceList PLACEHOLDER.data d.data PLACEHOLDER.data) = d
  rw [h]

/-- n words separated by single blanks, used to build a concrete oversized
document. -/
def spacedWords : Nat → List Char
  | 0 => []
  | n + 1 => 'w' :: ' ' :: spacedWords n

theorem splitAux_spacedWords (n : Nat) :
    splitAux (spacedWords n) [] = List.replicate n ['w'] := by
  induction n with
  | zero => rfl
  | succ m ih =>
    have e1 : pyIsSpace 'w' = false := rfl
    have e2 : pyIsSpace ' ' = true := rfl
    simp [spacedWords, splitAux, e1, e2, ih, List.replicate_succ]

/-- A concrete document large enough to trip the hard token ceiling. -/
def bigDoc : String := String.mk (spacedWords 92400)

theorem word_count_bigDoc : word_count bigDoc = 92400 := by
  have hdata : bigDoc.data = spacedWords 92400 := rfl
  unfold word_count pySplit
  rw [hdata, splitAux_spacedWords, List.length_map, List.length_replicate]

theorem bigDoc_estimate : 120000 < count_tokens_estimate bigDoc := by
  rw [count_tokens_estimate, word_count_bigDoc]
  norm_num

set_option maxRecDepth 100000 in
theorem default_filled_within_budget :
    ¬ 120000 < count_tokens_estimate (assemble DEFAULT_PROMPT NO_DOC_NOTICE) := by
  have h : word_count (assemble DEFAULT_PROMPT NO_DOC_NOTICE) = 146 := by decide
  rw [count_tokens_estimate, h]
  norm_num

-- Claim theorems --------------------------------------------------------------

/-- Claim C1: assemble performs literal substring replacement of the
placeholder token.  If the template holds no occurrence of the placeholder the
result is the template unchanged; an occurrence preceded by a placeholder-free
prefix is replaced by the document text with replacement continuing after it;
and the concrete scenario from the spec holds. -/
theorem assemble_replacement_spec :
    (∀ t d : String, hasOccurrence PLACEHOLDER.data t.data = false →
      assemble t d = t) ∧
    (∀ (a b : List Char) (d : String),
      (∀ i, i < a.length →
        PLACEHOLDER.data.isPrefixOf ((a ++ PLACEHOLDER.data ++ b).drop i) = false) →
      (assemble (String.mk (a ++ PLACEHOLDER.data ++ b)) d).data =
        a ++ d.data ++ (assemble (String.mk b) d).data) ∧
    assemble "Rules: {document_content} End." "Measure nodules >6mm." =
      "Rules: Measure nodules >6mm. End." := by
  refine ⟨?_, ?_, by decide⟩
  · intro t d h
    exact pyReplace_no_occurrence t PLACEHOLDER d h
  · intro a b d hno
    exact replaceList_append_occ PLACEHOLDER.data d.data (by decide) a b hno

theorem assemble_replacement_spec_witness :
    assemble "abc" "x" = "abc" ∧
    (assemble (String.mk ("A ".data ++ PLACEHOLDER.data ++ " B".data)) "doc").data =
      "A ".data ++ "doc".data ++ (assemble (String.mk " B".data) "doc").data :=
  ⟨assemble_replacement_spec.1 "abc" "x" (by decide),
   assemble_replacement_spec.2.1 "A ".data " B".data "doc" (by decide)⟩

/-- Claim C6: count_tokens_estimate is the whitespace word count times 1.3, is
0 on the empty string, and is monotonically non-decreasing in the word
count (it depends on the text only through its word count). -/
theorem count_tokens_estimate_spec :
    (∀ s : String, count_tokens_estimate s = (word_count s : ℚ) * (13 / 10)) ∧
    count_tokens_estimate "" = 0 ∧
    (∀ s t : String, word_count s ≤ word_count t →
      count_tokens_estimate s ≤ count_tokens_estimate t) := by
  refine ⟨fun s => rfl, ?_, ?_⟩
  · have h : word_count "" = 0 := rfl
    rw [count_tokens_estimate, h]
    norm_num
  · intro s t h
    unfold count_tokens_estimate
    have hc : (word_count s : ℚ) ≤ (word_count t : ℚ) := by exact_mod_cast h
    exact mul_le_mul_of_nonneg_right hc (by norm_num)

theorem count_tokens_estimate_spec_witness :
    count_tokens_estimate "one" ≤ count_tokens_estimate "two words" :=
  count_tokens_estimate_spec.2.2 "one" "two words" (by decide)

/-- Claim C7: for any study name with no entry in the prompt record file, and
in particular whenever the file is absent or unparseable, get_study_prompt
returns exactly the default template constant. -/
theorem get_study_prompt_default_spec :
    (∀ pf name, load_study_prompts pf name = none →
      get_study_prompt pf name = DEFAULT_PROMPT) ∧
    (∀ name, get_study_prompt .absent name = DEFAULT_PROMPT) ∧
    (∀ name, get_study_prompt .unparseable name = DEFAULT_PROMPT) := by
  refine ⟨?_, fun name => rfl, fun name => rfl⟩
  intro pf name h
  rw [get_study_prompt, h]
  rfl

theorem get_study_prompt_default_spec_witness :
    get_study_prompt (PromptsFileState.parsed fun _ => none) "CT Chest" =
      DEFAULT_PROMPT :=
  get_study_prompt_default_spec.1 (PromptsFileState.parsed fun _ => none)
    "CT Chest" rfl

/-- Claim C8: after a successful save of template p for study s,
get_study_prompt returns p for s and is unchanged on every other study. -/
theorem save_study_prompt_frame_spec :
    ∀ (pf : PromptsFileState) (s p t : String),
      get_study_prompt (save_study_prompt pf s p) s = p ∧
      (t ≠ s → get_study_prompt (save_study_prompt pf s p) t =
        get_study_prompt pf t) := by
  intro pf s p t
  constructor
  · simp [get_study_prompt, save_study_prompt, load_study_prompts]
  · intro ht
    simp [get_study_prompt, save_study_prompt, load_study_prompts, ht]

theorem save_study_prompt_frame_spec_witness :
    get_study_prompt (save_study_prompt .absent "MRI Brain" "P") "MRI Brain" = "P" ∧
    get_study_prompt (save_study_prompt .absent "MRI Brain" "P") "CT Chest" =
      get_study_prompt .absent "CT Chest" :=
  ⟨(save_study_prompt_frame_spec .absent "MRI Brain" "P" "CT Chest").1,
   (save_study_prompt_frame_spec .absent "MRI Brain" "P" "CT Chest").2 (by decide)⟩

/-- Claim C9: after a successful document save the existence check on the
study's document path is true, and after a successful removal it is false. -/
theorem document_save_remove_exists_spec :
    ∀ (fs : DocFS) (name : String) (bytes : List Nat),
      document_exists (save_study_document fs name bytes) name = true ∧
      document_exists (remove_study_document fs name) name = false := by
  intro fs name bytes
  constructor
  · simp [document_exists, save_study_document]
  · simp [document_exists, remove_study_document]

theorem document_save_remove_exists_spec_witness :
    document_exists (save_study_document (fun _ => none) "CT Chest" [1, 2]) "CT Chest" = true ∧
    document_exists (remove_study_document (fun _ => none) "CT Chest") "CT Chest" = false :=
  document_save_remove_exists_spec (fun _ => none) "CT Chest" [1, 2]

/-- Claim C2: the token check maps an estimate to exactly one of three levels
(error above 100000, warning above 50000 and at most 100000, ok otherwise);
the hard ceiling of 120000 blocks the submission before any API call; and an
estimate of 125000 yields the error level and is blocked. -/
theorem validate_thresholds_spec :
    (∀ t : ℚ,
      (validate t = TokenLevel.error ↔ 100000 < t) ∧
      (validate t = TokenLevel.warn ↔ 50000 < t ∧ t ≤ 100000) ∧
      (validate t = TokenLevel.ok ↔ t ≤ 50000)) ∧
    validate 125000 = TokenLevel.error ∧
    blocks_api_call 125000 = true ∧
    (∀ pf study hist findings fe ext,
      120000 < count_tokens_estimate (system_prompt_for pf study fe ext) →
      run_submission pf study hist findings fe ext = SubmitOutcome.blocked) := by
  refine ⟨?_, ?_, ?_, ?_⟩
  · intro t
    unfold validate
    split_ifs with h1 h2
    · exact ⟨⟨fun _ => h1, fun _ => rfl⟩,
        ⟨fun h => absurd h (by decide), fun hw => absurd h1 (not_lt.mpr hw.2)⟩,
        ⟨fun h => absurd h (by decide),
         fun hle => absurd h1 (not_lt.mpr (hle.trans (by norm_num)))⟩⟩
    · exact ⟨⟨fun h => absurd h (by decide), fun hgt => absurd hgt h1⟩,
        ⟨fun _ => ⟨h2, not_lt.mp h1⟩, fun _ => rfl⟩,
        ⟨fun h => absurd h (by decide), fun hle => absurd h2 (not_lt.mpr hle)⟩⟩
    · exact ⟨⟨fun h => absurd h (by decide), fun hgt => absurd hgt h1⟩,
        ⟨fun h => absurd h (by decide), fun hw => absurd hw.1 h2⟩,
        ⟨fun _ => not_lt.mp h2, fun _ => rfl⟩⟩
  · rw [validate, if_pos (by norm_num)]
  · rw [blocks_api_call, decide_eq_true_eq]
    norm_num
  · intro pf study hist findings fe ext h
    show (if 120000 < count_tokens_estimate (system_prompt_for pf study fe ext)
      then SubmitOutcome.blocked
      else SubmitOutcome.apiCall (system_prompt_for pf study fe ext)
        (build_user_prompt study hist findings)) = SubmitOutcome.blocked
    rw [if_pos h]

theorem validate_thresholds_spec_witness :
    run_submission (PromptsFileState.parsed fun _ => some PLACEHOLDER) "CT Chest"
      "" "" true (ExtractionResult.ok bigDoc) = SubmitOutcome.blocked := by
  refine validate_thresholds_spec.2.2.2 _ _ _ _ _ _ ?_
  have hs : system_prompt_for (PromptsFileState.parsed fun _ => some PLACEHOLDER)
      "CT Chest" true (ExtractionResult.ok bigDoc) = bigDoc := by
    show assemble (get_study_prompt (PromptsFileState.parsed fun _ => some PLACEHOLDER)
      "CT Chest") (document_content_for true (ExtractionResult.ok bigDoc)) = bigDoc
    have h1 : get_study_prompt (PromptsFileState.parsed fun _ => some PLACEHOLDER)
        "CT Chest" = PLACEHOLDER := rfl
    have h2 : document_content_for true (ExtractionResult.ok bigDoc) = bigDoc := rfl
    rw [h1, h2, assemble_placeholder]
  rw [hs]
  exact bigDoc_estimate

/-- Claim C3: when the selected study has no custom prompt and no reference
document file, the submission proceeds to the API call with system prompt
equal to the default template with the placeholder replaced by the literal
no-document notice. -/
theorem default_no_document_submission_spec :
    ∀ pf study hist findings ext,
      load_study_prompts pf study = none →
      run_submission pf study hist findings false ext =
        SubmitOutcome.apiCall (assemble DEFAULT_PROMPT NO_DOC_NOTICE)
          (build_user_prompt study hist findings) := by
  intro pf study hist findings ext h
  have hsys : system_prompt_for pf study false ext =
      assemble DEFAULT_PROMPT NO_DOC_NOTICE := by
    unfold system_prompt_for
    rw [get_study_prompt, h]
    rfl
  show (if 120000 < count_tokens_estimate (system_prompt_for pf study false ext)
    then SubmitOutcome.blocked
    else SubmitOutcome.apiCall (system_prompt_for pf study false ext)
      (build_user_prompt study hist findings)) = _
  rw [hsys, if_neg default_filled_within_budget]

theorem default_no_document_submission_spec_witness :
    run_submission PromptsFileState.absent "CT Chest" "" "" false
      ExtractionResult.failed =
      SubmitOutcome.apiCall (assemble DEFAULT_PROMPT NO_DOC_NOTICE)
        (build_user_prompt "CT Chest" "" "") :=
  default_no_document_submission_spec PromptsFileState.absent "CT Chest" "" ""
    ExtractionResult.failed rfl

/-- Claim C4 counterexample: get_study_document_path is not injective — the
distinct study names CT Chest and CT/Chest map to the same document path. -/
theorem get_study_document_path_collision :
    get_study_document_path "CT Chest" = get_study_document_path "CT/Chest" ∧
    "CT Chest" ≠ "CT/Chest" := by
  constructor
  · decide
  · decide

/-- Claim C4 (amended): get_study_document_path is injective on study names
that contain neither a slash nor a space (the sanitised characters). -/
theorem get_study_document_path_injective_amended :
    ∀ s t : String,
      (∀ c ∈ s.data, c ≠ '/' ∧ c ≠ ' ') →
      (∀ c ∈ t.data, c ≠ '/' ∧ c ≠ ' ') →
      get_study_document_path s = get_study_document_path t → s = t := by
  intro s t hs ht h
  have hslash : ("/" : String).data = ['/'] := rfl
  have hspace : (" " : String).data = [' '] := rfl
  have hs1 : pyReplace s "/" "_" = s := by
    refine pyReplace_no_occurrence s "/" "_" ?_
    rw [hslash]
    exact hasOccurrence_singleton '/' s.data (fun c hc => (hs c hc).1)
  have hs2 : pyReplace s " " "_" = s := by
    refine pyReplace_no_occurrence s " " "_" ?_
    rw [hspace]
    exact hasOccurrence_singleton ' ' s.data (fun c hc => (hs c hc).2)
  have ht1 : pyReplace t "/" "_" = t := by
    refine pyReplace_no_occurrence t "/" "_" ?_
    rw [hslash]
    exact hasOccurrence_singleton '/' t.data (fun c hc => (ht c hc).1)
  have ht2 : pyReplace t " " "_" = t := by
    refine pyReplace_no_occurrence t " " "_" ?_
    rw [hspace]
    exact hasOccurrence_singleton ' ' t.data (fun c hc => (ht c hc).2)
  rw [get_study_document_path, get_study_document_path, hs1, hs2, ht1, ht2] at h
  have hdata := congrArg String.data h
  simp only [data_append, List.append_assoc] at hdata
  have h1 := List.append_cancel_left hdata
  have h2 := List.append_cancel_left h1
  have h3 := List.append_cancel_right h2
  exact congrArg String.mk h3

theorem get_study_document_path_injective_amended_witness :
    ("MRCP" : String) = "MRCP" :=
  get_study_document_path_injective_amended "MRCP" "MRCP" (by decide) (by decide) rfl

/-- Claim C5 counterexample: a table row whose two cells are both blank is not
skipped — it contributes the line " | " to the rendered table section. -/
theorem blank_table_row_rendered :
    table_row_lines [[" ", "  "]] = [" | "] ∧
    pyStrip " " = "" ∧ pyStrip "  " = "" := by
  refine ⟨?_, ?_, ?_⟩ <;> decide

/-- Claim C5 (amended): a table row is skipped exactly when its joined cell
string is empty, which only happens for rows with no cell or a single
all-blank cell; every row with at least one non-blank cell is rendered as its
stripped cell values joined by the delimiter, and any row with two or more
cells is rendered even when all its cells are blank. -/
theorem table_row_lines_amended_spec :
    (∀ row rest, row_text row = "" →
      table_row_lines (row :: rest) = table_row_lines rest) ∧
    (∀ row rest, row_text row ≠ "" →
      table_row_lines (row :: rest) = row_text row :: table_row_lines rest) ∧
    (∀ row, (∃ c ∈ row, pyStrip c ≠ "") → row_text row ≠ "") ∧
    (∀ row : List String, 2 ≤ row.length → row_text row ≠ "") := by
  refine ⟨?_, ?_, ?_, ?_⟩
  · intro row rest h
    simp [table_row_lines, List.filterMap_cons, h]
  · intro row rest h
    simp [table_row_lines, List.filterMap_cons, h]
  · rintro (_ | ⟨c, _ | ⟨c2, rest⟩⟩) hex
    · simp at hex
    · obtain ⟨c', hc', hne⟩ := hex
      simp only [List.mem_singleton] at hc'
      subst hc'
      show row_text [c'] ≠ ""
      simpa [row_text, joinSep] using hne
    · have hform : row_text (c :: c2 :: rest) =
          pyStrip c ++ " | " ++ joinSep " | " (pyStrip c2 :: rest.map pyStrip) := rfl
      rw [hform]
      exact append_mid_ne_empty _ _
  · rintro (_ | ⟨c, _ | ⟨c2, rest⟩⟩) hlen
    · simp at hlen
    · simp at hlen
    · have hform : row_text (c :: c2 :: rest) =
          pyStrip c ++ " | " ++ joinSep " | " (pyStrip c2 :: rest.map pyStrip) := rfl
      rw [hform]
      exact append_mid_ne_empty _ _

theorem table_row_lines_amended_spec_witness :
    table_row_lines [["  "]] = [] ∧
    table_row_lines [["x"]] = [row_text ["x"]] ∧
    row_text ["x"] ≠ "" ∧
    row_text ["a", "b"] ≠ "" :=
  ⟨table_row_lines_amended_spec.1 ["  "] [] (by decide),
   table_row_lines_amended_spec.2.1 ["x"] [] (by decide),
   table_row_lines_amended_spec.2.2.1 ["x"] (by decide),
   table_row_lines_amended_spec.2.2.2 ["a", "b"] (by decide)⟩

/-- Claim C10: when the document file exists but extraction fails or yields
empty text, the handler substitutes the empty string for the placeholder; the
no-document notice is substituted only when the file is absent, and an
existing file with extracted text keeps that text. -/
theorem extraction_failure_empty_spec :
    (∀ pf study ext, ext = ExtractionResult.failed ∨ ext = ExtractionResult.ok "" →
      document_content_for true ext = "" ∧
      system_prompt_for pf study true ext =
        assemble (get_study_prompt pf study) "") ∧
    (∀ ext, document_content_for false ext = NO_DOC_NOTICE) ∧
    (∀ t, document_content_for true (ExtractionResult.ok t) = t) := by
  refine ⟨?_, fun ext => rfl, fun t => rfl⟩
  intro pf study ext hext
  have hc : document_content_for true ext = "" := by
    rcases hext with h | h <;> subst h <;> rfl
  refine ⟨hc, ?_⟩
  unfold system_prompt_for
  rw [hc]

theorem extraction_failure_empty_spec_witness :
    document_content_for true ExtractionResult.failed = "" ∧
    system_prompt_for PromptsFileState.absent "CT Chest" true
      ExtractionResult.failed =
      assemble (get_study_prompt PromptsFileState.absent "CT Chest") "" :=
  extraction_failure_empty_spec.1 PromptsFileState.absent "CT Chest"
    ExtractionResult.failed (Or.inl rfl)
